import Mathlib

set_option maxRecDepth 8192

/- Shallow embedding of the mymaintlog data layer (src/utils/data_handler.py)
   and reminder notifier (src/utils/email_notifier.py).

   An SQLite table is a list of rows; a row is an association list from column
   name to stored value, carrying the full schema of its table.  WHERE-clause
   equality follows SQL three-valued logic (a comparison with NULL is never
   true).  Python methods that can return None are modelled with Option. -/

/-- An SQLite storage value: NULL, INTEGER, TEXT or BLOB. -/
inductive Val where
  | null : Val
  | int : Int → Val
  | text : String → Val
  | blob : List Nat → Val
deriving DecidableEq

abbrev Row := List (String × Val)

abbrev Table := List Row

/-- Value stored under column c of row r (none when the column is absent). -/
def rowGet (r : Row) (c : String) : Option Val :=
  (r.find? (fun p => p.1 == c)).map (fun p => p.2)

/-- UPDATE-style assignment: replaces the value of an existing column.  A row
never gains a column this way, since SQL rows always carry their full schema. -/
def rowSet (r : Row) (c : String) (v : Val) : Row :=
  r.map (fun p => if p.1 == c then (p.1, v) else p)

/-- Python truthiness of a stored value (0, "", b"" and None are falsy). -/
def pyTruthy : Val → Bool
  | Val.null => false
  | Val.int i => i != 0
  | Val.text s => s != ""
  | Val.blob b => !b.isEmpty

/-- Truthiness of reminder.get(c, False): a missing column defaults to False. -/
def truthyField (r : Row) (c : String) : Bool :=
  match rowGet r c with
  | some v => pyTruthy v
  | none => false

/-- SQL equality under three-valued logic: NULL never compares equal. -/
def sqlEq : Val → Val → Bool
  | Val.int a, Val.int b => a == b
  | Val.text a, Val.text b => a == b
  | Val.blob a, Val.blob b => a == b
  | _, _ => false

/-- Does row r satisfy the WHERE clause "col = v"? -/
def rowMatch (r : Row) (cv : String × Val) : Bool :=
  match rowGet r cv.1 with
  | some w => sqlEq w cv.2
  | none => false

/-- ASCII lower-casing of one character (Python str.lower on the ASCII range;
the alias table and canonical categories are all ASCII). -/
def lowerChar (c : Char) : Char :=
  match c with
  | 'A' => 'a' | 'B' => 'b' | 'C' => 'c' | 'D' => 'd' | 'E' => 'e'
  | 'F' => 'f' | 'G' => 'g' | 'H' => 'h' | 'I' => 'i' | 'J' => 'j'
  | 'K' => 'k' | 'L' => 'l' | 'M' => 'm' | 'N' => 'n' | 'O' => 'o'
  | 'P' => 'p' | 'Q' => 'q' | 'R' => 'r' | 'S' => 's' | 'T' => 't'
  | 'U' => 'u' | 'V' => 'v' | 'W' => 'w' | 'X' => 'x' | 'Y' => 'y'
  | 'Z' => 'z' | other => other

/-- ASCII upper-casing of one character (Python str.upper on the ASCII range). -/
def upperChar (c : Char) : Char :=
  match c with
  | 'a' => 'A' | 'b' => 'B' | 'c' => 'C' | 'd' => 'D' | 'e' => 'E'
  | 'f' => 'F' | 'g' => 'G' | 'h' => 'H' | 'i' => 'I' | 'j' => 'J'
  | 'k' => 'K' | 'l' => 'L' | 'm' => 'M' | 'n' => 'N' | 'o' => 'O'
  | 'p' => 'P' | 'q' => 'Q' | 'r' => 'R' | 's' => 'S' | 't' => 'T'
  | 'u' => 'U' | 'v' => 'V' | 'w' => 'W' | 'x' => 'X' | 'y' => 'Y'
  | 'z' => 'Z' | other => other

/-- Characters stripped by Python str.strip() with no arguments (ASCII part). -/
def isSpaceChar (c : Char) : Bool :=
  c == ' ' || c == '\t' || c == '\n' || c == '\x0d' || c == '\x0b' || c == '\x0c'

/-- Python str.strip(): remove leading and trailing whitespace. -/
def pyStrip (s : String) : String :=
  String.mk (((s.data.dropWhile isSpaceChar).reverse.dropWhile isSpaceChar).reverse)

/-- Python str.lower() (ASCII range). -/
def pyLower (s : String) : String :=
  String.mk (s.data.map lowerChar)

/-- Python str.upper() (ASCII range). -/
def pyUpper (s : String) : String :=
  String.mk (s.data.map upperChar)

/-- Python s[:3]. -/
def take3 (s : String) : String :=
  String.mk (s.data.take 3)

/-- Python str(x) for a string-or-None value. -/
def pyStr : Option String → String
  | none => "None"
  | some s => s

/-- DataHandler._OBJECT_TYPE_CANON: variant spelling to canonical object_type. -/
def canonTable : List (String × String) :=
  [("vehicle", "Vehicle"), ("vehicles", "Vehicle"), ("veh", "Vehicle"),
   ("facility", "Facility"), ("facilities", "Facility"), ("fac", "Facility"),
   ("other", "Other"), ("equipment", "Other")]

/-- Core of DataHandler.normalize_object_type on a string: strip, look the
lower-cased form up in the alias table, default to the stripped string. -/
def strNorm (s : String) : String :=
  match canonTable.lookup (pyLower (pyStrip s)) with
  | some c => c
  | none => pyStrip s

/-- DataHandler.normalize_object_type for string-or-None input
(src/utils/data_handler.py lines 191-196). -/
def normalize_object_type : Option String → Option String
  | none => none
  | some s => some (strNorm s)

/-- normalize_object_type applied to a stored cell (str(value) for integers;
object_type cells in this schema are only ever TEXT or NULL, the blob case is
kept as identity). -/
def normalizeVal : Val → Val
  | Val.null => Val.null
  | Val.text s => Val.text (strNorm s)
  | Val.int i => Val.text (strNorm (toString i))
  | Val.blob b => Val.blob b

/-- DataHandler._norm_df: normalise the object_type column of returned rows. -/
def normRow (r : Row) : Row :=
  r.map (fun p => if p.1 == "object_type" then (p.1, normalizeVal p.2) else p)

/-- Clause list contributed by one optional exact-match filter parameter:
present only when the parameter is truthy; the object_type filter value is
normalised first (norm = true). -/
def optClause (c : String) (p : Option String) (norm : Bool) : List (String × Val) :=
  match p with
  | some t => if t != "" then [(c, Val.text (if norm then strNorm t else t))] else []
  | none => []

/-- Owner clause: "user_email = ?" only when user_email is truthy and the
caller is not an admin. -/
def ownerClause (user_email : Option String) (is_admin : Bool) : List (String × Val) :=
  match user_email with
  | some u => if u != "" && !is_admin then [("user_email", Val.text u)] else []
  | none => []

/-- DataHandler.get_objects (src/utils/data_handler.py lines 202-214). -/
def get_objects (tbl : Table) (object_type user_email : Option String)
    (is_admin : Bool) : Table :=
  let cs := optClause "object_type" object_type true ++ ownerClause user_email is_admin
  (tbl.filter (fun r => cs.all (fun c => rowMatch r c))).map normRow

/-- DataHandler.get_reminders (src/utils/data_handler.py lines 361-380). -/
def get_reminders (tbl : Table) (object_type object_id status user_email : Option String)
    (is_admin : Bool) : Table :=
  let cs := optClause "object_type" object_type true ++ optClause "object_id" object_id false
      ++ optClause "status" status false ++ ownerClause user_email is_admin
  (tbl.filter (fun r => cs.all (fun c => rowMatch r c))).map normRow

/-- DataHandler.get_fault_reports (src/utils/data_handler.py lines 498-512). -/
def get_fault_reports (tbl : Table) (object_type object_id user_email : Option String)
    (is_admin : Bool) : Table :=
  let cs := optClause "object_type" object_type true ++ optClause "object_id" object_id false
      ++ ownerClause user_email is_admin
  (tbl.filter (fun r => cs.all (fun c => rowMatch r c))).map normRow

/-- _TABLE_COLUMNS["objects"]. -/
def objectsCols : List String :=
  ["object_id", "object_type", "name", "description",
   "status", "created_date", "last_updated", "user_email"]

/-- _TABLE_COLUMNS["reminders"]. -/
def remindersCols : List String :=
  ["reminder_id", "service_id", "object_id", "object_type",
   "reminder_date", "status", "notes", "created_date",
   "user_email", "email_notification", "notification_time", "email_sent"]

/-- _TABLE_COLUMNS["fault_reports"]. -/
def faultReportsCols : List String :=
  ["fault_id", "object_id", "object_type", "observation_date",
   "actual_meter_reading", "meter_unit", "description",
   "photo_paths", "created_date", "user_email"]

/-- The kwargs filtering loop shared by all update_* methods: keep only keys
in the table's column set, normalising the value under "object_type". -/
def filterKwargs (valid : List String) (kwargs : List (String × Val)) :
    List (String × Val) :=
  kwargs.filterMap (fun kv =>
    if valid.contains kv.1 then
      some (kv.1, if kv.1 == "object_type" then normalizeVal kv.2 else kv.2)
    else none)

/-- Apply SET assignments left to right (in SQLite a repeated column in a SET
list takes its last assignment). -/
def applySets (sets : List (String × Val)) (r : Row) : Row :=
  sets.foldl (fun acc kv => rowSet acc kv.1 kv.2) r

/-- Last value assigned to column c by a SET list, if any. -/
def lastVal (sets : List (String × Val)) (c : String) : Option Val :=
  sets.foldl (fun acc kv => if kv.1 == c then some kv.2 else acc) none

/-- Shared shape of the update_* methods: filter kwargs against the column
set; if nothing remains return (unchanged, False); otherwise apply the
assignments (plus trailing extras such as last_updated) to every row matching
the id and report whether any row matched (cur.rowcount > 0). -/
def updateTable (idCol : String) (valid : List String) (extra : List (String × Val))
    (tbl : Table) (idv : Val) (kwargs : List (String × Val)) : Table × Bool :=
  let sets := filterKwargs valid kwargs
  if sets.isEmpty then (tbl, false)
  else
    (tbl.map (fun r => if rowMatch r (idCol, idv) then applySets (sets ++ extra) r else r),
     tbl.any (fun r => rowMatch r (idCol, idv)))

/-- DataHandler.update_object (src/utils/data_handler.py lines 234-256):
always appends "last_updated = now" after the filtered kwarg assignments. -/
def update_object (tbl : Table) (object_id : Val) (kwargs : List (String × Val))
    (now : String) : Table × Bool :=
  updateTable "object_id" objectsCols [("last_updated", Val.text now)] tbl object_id kwargs

/-- DataHandler.update_reminder (src/utils/data_handler.py lines 400-418). -/
def update_reminder (tbl : Table) (reminder_id : Val)
    (kwargs : List (String × Val)) : Table × Bool :=
  updateTable "reminder_id" remindersCols [] tbl reminder_id kwargs

/-- DataHandler.update_fault_report (src/utils/data_handler.py lines 533-551). -/
def update_fault_report (tbl : Table) (fault_id : Val)
    (kwargs : List (String × Val)) : Table × Bool :=
  updateTable "fault_id" faultReportsCols [] tbl fault_id kwargs

/-- DataHandler.delete_object (src/utils/data_handler.py lines 258-261):
deletes matching rows; the Python method has no return statement, so its
value is None (modelled as Option.none, which is falsy). -/
def delete_object (tbl : Table) (object_id : Val) : Table × Option Bool :=
  (tbl.filter (fun r => !rowMatch r ("object_id", object_id)), none)

/-- DataHandler.delete_service (src/utils/data_handler.py lines 324-327):
also returns no value. -/
def delete_service (tbl : Table) (service_id : Val) : Table × Option Bool :=
  (tbl.filter (fun r => !rowMatch r ("service_id", service_id)), none)

/-- DataHandler.delete_reminder (src/utils/data_handler.py lines 420-426):
returns cur.rowcount > 0, the number of deleted rows being the match count. -/
def delete_reminder (tbl : Table) (reminder_id : Val) : Table × Option Bool :=
  (tbl.filter (fun r => !rowMatch r ("reminder_id", reminder_id)),
   some (decide (0 < tbl.countP (fun r => rowMatch r ("reminder_id", reminder_id)))))

/-- DataHandler.delete_fault_report (src/utils/data_handler.py lines 553-559):
removes the fault report row and returns cur.rowcount > 0. -/
def delete_fault_report (tbl : Table) (fault_id : Val) : Table × Option Bool :=
  (tbl.filter (fun r => !rowMatch r ("fault_id", fault_id)),
   some (decide (0 < tbl.countP (fun r => rowMatch r ("fault_id", fault_id)))))

/-- Numeric value of a decimal digit character. -/
def digitVal (c : Char) : Nat := c.toNat - 48

/-- SQLite CAST(digit-text AS INTEGER) core: value of the longest leading run
of decimal digits (zero when there is none). -/
def castDigits (cs : List Char) : Nat :=
  (cs.takeWhile Char.isDigit).foldl (fun a c => a * 10 + digitVal c) 0

/-- SQLite CAST(s AS INTEGER): optional sign followed by the longest digit
run; anything unparsable contributes zero. -/
def castInt (s : String) : Int :=
  match s.data with
  | [] => 0
  | c :: cs =>
    if c == '-' then -(castDigits cs : Int)
    else if c == '+' then (castDigits cs : Int)
    else (castDigits (c :: cs) : Int)

/-- SQLite SUBSTR(s, n) for a 1-based start index n: the suffix from there. -/
def sqlSubstrFrom (s : String) (n : Nat) : String :=
  String.mk (s.data.drop (n - 1))

/-- Decimal digit character for d < 10 (clamped at '9' above). -/
def digitChar (d : Nat) : Char :=
  match d with
  | 0 => '0' | 1 => '1' | 2 => '2' | 3 => '3' | 4 => '4'
  | 5 => '5' | 6 => '6' | 7 => '7' | 8 => '8' | _ => '9'

/-- Decimal digits of a natural number, most significant first. -/
def natDigits (n : Nat) : List Char :=
  if _h : n < 10 then [digitChar n]
  else natDigits (n / 10) ++ [digitChar (n % 10)]
decreasing_by
  exact Nat.div_lt_self (by omega) (by omega)

/-- Python f-string zero padding of a natural number to width w. -/
def zeroPadNat (w : Nat) (n : Nat) : String :=
  String.mk (List.replicate (w - (natDigits n).length) '0' ++ natDigits n)

/-- Python f"{i:0wd}": total width w including a possible sign, the zero
padding coming after the sign. -/
def intPad (w : Nat) (i : Int) : String :=
  if i < 0 then String.mk ('-' :: (zeroPadNat (w - 1) (-i).toNat).data)
  else zeroPadNat w i.toNat

/-- MAX aggregate combined with Python "(row[0] or 0)": None (empty input)
becomes 0, any actual maximum passes through. -/
def maxOr0 : List Int → Int
  | [] => 0
  | x :: xs => xs.foldl max x

/-- CAST(SUBSTR(service_id, 5) AS INTEGER) over all service rows; rows whose
id is NULL or missing yield SQL NULL and are ignored by MAX. -/
def serviceSuffixes (tbl : Table) : List Int :=
  tbl.filterMap (fun r =>
    match rowGet r "service_id" with
    | some (Val.text s) => some (castInt (sqlSubstrFrom s 5))
    | _ => none)

/-- CAST(SUBSTR(object_id, 5) AS INTEGER) over object rows WHERE
object_type = ot; when ot is None the SQL comparison with NULL matches no row. -/
def objectSuffixes (tbl : Table) (ot : Option String) : List Int :=
  match ot with
  | none => []
  | some t =>
    tbl.filterMap (fun r =>
      if rowMatch r ("object_type", Val.text t) then
        match rowGet r "object_id" with
        | some (Val.text s) => some (castInt (sqlSubstrFrom s 5))
        | _ => none
      else none)

/-- A string-or-None parameter as a stored value. -/
def optVal : Option String → Val
  | none => Val.null
  | some s => Val.text s

/-- DataHandler.add_object (src/utils/data_handler.py lines 216-232): the new
id is str(normalized type)[:3].upper() + "-" + the per-type max suffix plus
one, zero-padded to width 4; the row is inserted in schema order. -/
def add_object (tbl : Table) (object_type : Option String)
    (name description status user_email : Val) (now : String) : Table × String :=
  let ot := normalize_object_type object_type
  let pfx := pyUpper (take3 (pyStr ot))
  let m := maxOr0 (objectSuffixes tbl ot)
  let oid := String.mk (pfx.data ++ ['-'] ++ (intPad 4 (m + 1)).data)
  (tbl ++ [[("object_id", Val.text oid), ("object_type", optVal ot),
            ("name", name), ("description", description), ("status", status),
            ("created_date", Val.text now), ("last_updated", Val.text now),
            ("user_email", user_email)]],
   oid)

/-- DataHandler.add_service (src/utils/data_handler.py lines 284-302): the new
id is "SVC-" + the table-wide max suffix plus one, zero-padded to width 5;
last_service_date is inserted as NULL and next_service_date as today. -/
def add_service (tbl : Table) (object_id : Val) (object_type : Option String)
    (service_name interval_days description status notes
     expected_meter_reading meter_unit user_email : Val)
    (now today : String) : Table × String :=
  let ot := normalize_object_type object_type
  let m := maxOr0 (serviceSuffixes tbl)
  let sid := String.mk (['S', 'V', 'C', '-'] ++ (intPad 5 (m + 1)).data)
  (tbl ++ [[("service_id", Val.text sid), ("object_id", object_id),
            ("object_type", optVal ot), ("service_name", service_name),
            ("description", description), ("interval_days", interval_days),
            ("last_service_date", Val.null), ("next_service_date", Val.text today),
            ("status", status), ("notes", notes), ("created_date", Val.text now),
            ("expected_meter_reading", expected_meter_reading),
            ("meter_unit", meter_unit), ("user_email", user_email)]],
   sid)

/-- A calendar date as compared by the notifier (only the date, never the
time of day). -/
structure Date where
  y : Nat
  m : Nat
  d : Nat
deriving DecidableEq

/-- Date comparison a ≤ b. -/
def dateLe (a b : Date) : Bool :=
  if a.y ≠ b.y then decide (a.y < b.y)
  else if a.m ≠ b.m then decide (a.m < b.m)
  else decide (a.d ≤ b.d)

/-- Split a character list at every dash. -/
def splitDashAux : List Char → List Char → List (List Char)
  | [], acc => [acc.reverse]
  | '-' :: rest, acc => acc.reverse :: splitDashAux rest []
  | c :: rest, acc => splitDashAux rest (c :: acc)

/-- Value of a nonempty all-digit character run. -/
def decList? (cs : List Char) : Option Nat :=
  if !cs.isEmpty && cs.all Char.isDigit then
    some (cs.foldl (fun a c => a * 10 + digitVal c) 0)
  else none

/-- pd.to_datetime(s).date() for the ISO "YYYY-MM-DD" strings this system
writes; any other shape raises and is treated as a parse failure. -/
def parseDate (s : String) : Option Date :=
  match splitDashAux s.data [] with
  | [ys, ms, ds] =>
    match decList? ys, decList? ms, decList? ds with
    | some y, some mo, some da =>
      if 1 ≤ mo ∧ mo ≤ 12 ∧ 1 ≤ da ∧ da ≤ 31 then some ⟨y, mo, da⟩ else none
    | _, _, _ => none
  | _ => none

/-- The guard chain of EmailNotifier.check_and_send_pending_reminders for one
reminder row (src/utils/email_notifier.py lines 102-121): notification flag
truthy, status exactly "Pending", email_sent falsy, and the parsed target
date on or before today; a parse failure is caught and skips the row. -/
def eligible (today : Date) (r : Row) : Bool :=
  truthyField r "email_notification" &&
  decide (rowGet r "status" = some (Val.text "Pending")) &&
  !truthyField r "email_sent" &&
  (match rowGet r "reminder_date" with
   | some (Val.text s) =>
     match parseDate s with
     | some d => dateLe d today
     | none => false
   | _ => false)

/-- Observable outcome of one poll: the emails_sent counter returned to the
caller, the reminders table held by the DataHandler, and the rows for which a
delivery was attempted (each call of send_reminder_email, in order). -/
structure PollResult where
  sent : Nat
  store : Table
  attempts : List Row
deriving DecidableEq

/-- reminder.get("reminder_id"), a missing column giving Python None (NULL). -/
def reminderIdOf (r : Row) : Val :=
  match rowGet r "reminder_id" with
  | some v => v
  | none => Val.null

/-- Body of the polling loop for one reminder (src/utils/email_notifier.py
lines 102-152): skip unless eligible; otherwise attempt delivery, and on
transport success count it and mark email_sent=True through
DataHandler.update_reminder (Python True binds as SQLite 1); on failure the
store is left untouched.  Errors inside delivery or the update are caught, so
the loop always proceeds to the next reminder. -/
def processOne (today : Date) (transport : Row → Bool) (acc : PollResult)
    (r : Row) : PollResult :=
  if eligible today r then
    if transport r then
      { sent := acc.sent + 1,
        store := (update_reminder acc.store (reminderIdOf r) [("email_sent", Val.int 1)]).1,
        attempts := acc.attempts ++ [r] }
    else
      { acc with attempts := acc.attempts ++ [r] }
  else acc

/-- EmailNotifier.check_and_send_pending_reminders (src/utils/email_notifier.py
lines 81-154): a disabled configuration or an empty frame short-circuits to
zero sent; otherwise every row of the polled frame is processed in order. -/
def check_and_send (enabled : Bool) (today : Date) (transport : Row → Bool)
    (df : List Row) (store : Table) : PollResult :=
  if !enabled || df.isEmpty then ⟨0, store, []⟩
  else df.foldl (processOne today transport) ⟨0, store, []⟩

/-- The store of fault reports together with their photo rows. -/
structure FaultStore where
  reports : Table
  photos : Table
deriving DecidableEq

/-- Modelled from the spec: the fault_photos relation (photo id, owning fault
id, filename, mime type, binary payload) and the removal of all of a fault
report's photo rows in the same logical operation as the report-row delete.
The relation and its accessors (get_fault_photos, save_fault_photo) are
called by scripts/migrate_photos_to_sqlite.py but are absent from
src/utils/data_handler.py; the report-row deletion and the row-existed return
value follow DataHandler.delete_fault_report (lines 553-559). -/
def delete_fault_report_with_photos (s : FaultStore) (fault_id : Val) :
    FaultStore × Bool :=
  let res := delete_fault_report s.reports fault_id
  (⟨res.1, s.photos.filter (fun p => !rowMatch p ("fault_id", fault_id))⟩,
   match res.2 with
   | some b => b
   | none => false)

/-- Concrete object row owned by alice, used by witnesses. -/
def demoObjectA : Row :=
  [("object_id", Val.text "VEH-0001"), ("object_type", Val.text "Vehicle"),
   ("name", Val.text "Truck 1"), ("description", Val.text ""),
   ("status", Val.text "Active"), ("created_date", Val.text "2026-01-01 08:00:00"),
   ("last_updated", Val.text "2026-01-01 08:00:00"),
   ("user_email", Val.text "alice@example.com")]

/-- Concrete object row owned by bob, used by witnesses. -/
def demoObjectB : Row :=
  [("object_id", Val.text "VEH-0002"), ("object_type", Val.text "vehicles"),
   ("name", Val.text "Truck 2"), ("description", Val.text ""),
   ("status", Val.text "Active"), ("created_date", Val.text "2026-01-02 08:00:00"),
   ("last_updated", Val.text "2026-01-02 08:00:00"),
   ("user_email", Val.text "bob@example.com")]

/-- Concrete objects table with rows of two users. -/
def demoObjects : Table := [demoObjectA, demoObjectB]

/-- Concrete pending reminder with email notification on, not yet sent. -/
def demoReminderA : Row :=
  [("reminder_id", Val.text "REM-00001"), ("service_id", Val.text "SVC-00001"),
   ("object_id", Val.text "VEH-0001"), ("object_type", Val.text "Vehicle"),
   ("reminder_date", Val.text "2026-10-11"), ("status", Val.text "Pending"),
   ("notes", Val.text ""), ("created_date", Val.text "2026-10-01 09:00:00"),
   ("user_email", Val.text "alice@example.com"),
   ("email_notification", Val.int 1), ("notification_time", Val.text "09:00"),
   ("email_sent", Val.int 0)]

/-- Concrete reminder of another user whose email was already sent. -/
def demoReminderB : Row :=
  [("reminder_id", Val.text "REM-00002"), ("service_id", Val.text "SVC-00002"),
   ("object_id", Val.text "VEH-0002"), ("object_type", Val.text "Vehicle"),
   ("reminder_date", Val.text "2026-10-11"), ("status", Val.text "Pending"),
   ("notes", Val.text ""), ("created_date", Val.text "2026-10-01 09:00:00"),
   ("user_email", Val.text "bob@example.com"),
   ("email_notification", Val.int 1), ("notification_time", Val.text "09:00"),
   ("email_sent", Val.int 1)]

/-- Concrete reminders table. -/
def demoReminders : Table := [demoReminderA, demoReminderB]

/-- Concrete service row with numeric suffix 7. -/
def demoService : Row :=
  [("service_id", Val.text "SVC-00007"), ("object_id", Val.text "VEH-0001"),
   ("object_type", Val.text "Vehicle"), ("service_name", Val.text "Oil change"),
   ("description", Val.text ""), ("interval_days", Val.int 90),
   ("last_service_date", Val.null), ("next_service_date", Val.text "2026-10-01"),
   ("status", Val.text "Scheduled"), ("notes", Val.text ""),
   ("created_date", Val.text "2026-07-01 09:00:00"),
   ("expected_meter_reading", Val.null), ("meter_unit", Val.text "km"),
   ("user_email", Val.text "alice@example.com")]

/-- Concrete services table. -/
def demoServices : Table := [demoService]

/-- Concrete fault report row. -/
def demoFault : Row :=
  [("fault_id", Val.text "FLT-00001"), ("object_id", Val.text "VEH-0001"),
   ("object_type", Val.text "Vehicle"), ("observation_date", Val.text "2026-10-05"),
   ("actual_meter_reading", Val.int 1200), ("meter_unit", Val.text "km"),
   ("description", Val.text "Flat tire"), ("photo_paths", Val.text ""),
   ("created_date", Val.text "2026-10-05 10:00:00"),
   ("user_email", Val.text "alice@example.com")]

/-- Concrete fault store: one report with two photos plus a photo of another
report. -/
def demoFaultStore : FaultStore :=
  { reports := [demoFault],
    photos :=
      [[("photo_id", Val.int 1), ("fault_id", Val.text "FLT-00001"),
        ("filename", Val.text "a.jpg"), ("mime_type", Val.text "image/jpeg"),
        ("data", Val.blob [1, 2, 3])],
       [("photo_id", Val.int 2), ("fault_id", Val.text "FLT-00001"),
        ("filename", Val.text "b.jpg"), ("mime_type", Val.text "image/jpeg"),
        ("data", Val.blob [4, 5])],
       [("photo_id", Val.int 3), ("fault_id", Val.text "FLT-00002"),
        ("filename", Val.text "c.jpg"), ("mime_type", Val.text "image/jpeg"),
        ("data", Val.blob [6])]] }

theorem rowGet_cons (p : String × Val) (ps : Row) (c : String) :
    rowGet (p :: ps) c = if p.1 == c then some p.2 else rowGet ps c := by
  cases h : (p.1 == c) <;> simp [rowGet, List.find?_cons, h]

theorem filter_const_true (l : List Row) : l.filter (fun _ => true) = l := by
  induction l with
  | nil => rfl
  | cons a as ih => simp [List.filter_cons, ih]

theorem countP_decide_any (l : List Row) (p : Row → Bool) :
    decide (0 < l.countP p) = l.any p := by
  cases hA : l.any p
  · have h := List.any_eq_false.mp hA
    have h0 : l.countP p = 0 := List.countP_eq_zero.mpr (by
      intro a ha hp
      exact h a ha hp)
    simp [h0]
  · obtain ⟨x, hx, hp⟩ := List.any_eq_true.mp hA
    have : 0 < l.countP p := List.countP_pos_iff.mpr ⟨x, hx, hp⟩
    simp [this]

theorem rowGet_normRow (r : Row) (c : String) (h : c ≠ "object_type") :
    rowGet (normRow r) c = rowGet r c := by
  induction r with
  | nil => rfl
  | cons p ps ih =>
    obtain ⟨k, v⟩ := p
    show rowGet ((if k == "object_type" then (k, normalizeVal v) else (k, v)) :: normRow ps) c
        = rowGet ((k, v) :: ps) c
    by_cases hk : k = "object_type"
    · subst hk
      have hc : (("object_type" : String) == c) = false := by
        simp only [beq_eq_false_iff_ne]
        exact fun e => h e.symm
      simp [rowGet_cons, hc, ih]
    · have hk' : (k == "object_type") = false := by
        simp only [beq_eq_false_iff_ne]
        exact hk
      cases hc : (k == c) <;> simp [hk', rowGet_cons, hc, ih]

theorem sqlEq_text_right (w : Val) (a : String) (h : sqlEq w (Val.text a) = true) :
    w = Val.text a := by
  cases w <;> simp [sqlEq] at h ⊢
  exact h

/-- C3: every alias of the canon table (matched case-insensitively after
stripping surrounding whitespace) normalises to its documented canonical
value among Vehicle, Facility, Other; a string not in the table comes back
merely stripped; and None passes through as None.  Mirrors
DataHandler.normalize_object_type and _OBJECT_TYPE_CANON. -/
theorem normalize_object_type_contract :
    normalize_object_type none = none
    ∧ (∀ s : String, pyLower (pyStrip s) = "vehicle" →
        normalize_object_type (some s) = some "Vehicle")
    ∧ (∀ s : String, pyLower (pyStrip s) = "vehicles" →
        normalize_object_type (some s) = some "Vehicle")
    ∧ (∀ s : String, pyLower (pyStrip s) = "veh" →
        normalize_object_type (some s) = some "Vehicle")
    ∧ (∀ s : String, pyLower (pyStrip s) = "facility" →
        normalize_object_type (some s) = some "Facility")
    ∧ (∀ s : String, pyLower (pyStrip s) = "facilities" →
        normalize_object_type (some s) = some "Facility")
    ∧ (∀ s : String, pyLower (pyStrip s) = "fac" →
        normalize_object_type (some s) = some "Facility")
    ∧ (∀ s : String, pyLower (pyStrip s) = "other" →
        normalize_object_type (some s) = some "Other")
    ∧ (∀ s : String, pyLower (pyStrip s) = "equipment" →
        normalize_object_type (some s) = some "Other")
    ∧ (∀ s : String, canonTable.lookup (pyLower (pyStrip s)) = none →
        normalize_object_type (some s) = some (pyStrip s)) := by
  refine ⟨rfl, ?_, ?_, ?_, ?_, ?_, ?_, ?_, ?_, ?_⟩ <;>
    (intro s h; show some (strNorm s) = _; unfold strNorm; rw [h]; try rfl)

/-- C3 witness: concrete evaluations through the theorem. -/
theorem normalize_object_type_contract_witness :
    normalize_object_type (some "  VEHICLES  ") = some "Vehicle"
    ∧ normalize_object_type (some " Custom Kit ") = some "Custom Kit" :=
  ⟨normalize_object_type_contract.2.2.1 "  VEHICLES  " rfl,
   normalize_object_type_contract.2.2.2.2.2.2.2.2.2 " Custom Kit " rfl⟩

/-- C5 (amended): Delete on a non-existent id leaves the table unchanged and
returns a falsy result for every kind; delete_reminder (like delete_report
and delete_fault_report) returns whether a row with that id existed, but
delete_object and delete_service have no return statement and always return
Python None (falsy), even when the deleted row existed. -/
theorem delete_return_contract (tbl tblR : Table) (idv : Val) :
    ((delete_reminder tblR idv).2
        = some (tblR.any (fun r => rowMatch r ("reminder_id", idv))))
    ∧ (delete_object tbl idv).2 = none
    ∧ (delete_service tbl idv).2 = none
    ∧ ((∀ r ∈ tblR, rowMatch r ("reminder_id", idv) = false) →
        delete_reminder tblR idv = (tblR, some false))
    ∧ ((∀ r ∈ tbl, rowMatch r ("object_id", idv) = false) →
        delete_object tbl idv = (tbl, none))
    ∧ ((∀ r ∈ tbl, rowMatch r ("service_id", idv) = false) →
        delete_service tbl idv = (tbl, none)) := by
  refine ⟨?_, rfl, rfl, ?_, ?_, ?_⟩
  · show some _ = some _
    rw [countP_decide_any]
  · intro h
    have h1 : tblR.filter (fun r => !rowMatch r ("reminder_id", idv)) = tblR :=
      List.filter_eq_self.mpr (by intro a ha; simp [h a ha])
    have h2 : tblR.countP (fun r => rowMatch r ("reminder_id", idv)) = 0 :=
      List.countP_eq_zero.mpr (by intro a ha; simp [h a ha])
    simp [delete_reminder, h1, h2]
  · intro h
    have h1 : tbl.filter (fun r => !rowMatch r ("object_id", idv)) = tbl :=
      List.filter_eq_self.mpr (by intro a ha; simp [h a ha])
    simp [delete_object, h1]
  · intro h
    have h1 : tbl.filter (fun r => !rowMatch r ("service_id", idv)) = tbl :=
      List.filter_eq_self.mpr (by intro a ha; simp [h a ha])
    simp [delete_service, h1]

/-- C5 witness: deleting a reminder id that is not present leaves the
concrete table unchanged and returns False. -/
theorem delete_return_contract_witness :
    delete_reminder demoReminders (Val.text "REM-99999") = (demoReminders, some false) :=
  (delete_return_contract demoObjects demoReminders
      (Val.text "REM-99999")).2.2.2.1 (by decide)

/-- C5 counterexample: the object row VEH-0001 exists, yet delete_object
returns Python None (falsy) rather than a truthy row-existed result, so
"Delete(id) returns whether a row existed" fails for the objects kind. -/
theorem delete_object_counterexample :
    demoObjects.any (fun r => rowMatch r ("object_id", Val.text "VEH-0001")) = true
    ∧ (delete_object demoObjects (Val.text "VEH-0001")).2 = none :=
  ⟨by decide, rfl⟩

/-- C9: a query with the owner argument absent or empty and is_admin = false
applies no owner filter and returns every row (category-normalised), for
get_objects, get_fault_reports and get_reminders alike. -/
theorem query_without_owner_returns_all (tbl : Table) :
    get_objects tbl none none false = tbl.map normRow
    ∧ get_objects tbl none (some "") false = tbl.map normRow
    ∧ get_fault_reports tbl none none none false = tbl.map normRow
    ∧ get_fault_reports tbl none none (some "") false = tbl.map normRow
    ∧ get_reminders tbl none none none none false = tbl.map normRow := by
  refine ⟨?_, ?_, ?_, ?_, ?_⟩ <;>
    simp [get_objects, get_fault_reports, get_reminders, optClause, ownerClause,
      filter_const_true]

/-- C7: with rows of several owners in the table, a non-admin query scoped to
owner A returns exactly A's rows (every returned row carries user_email A, so
no row of another user appears), while the same query with is_admin = true
skips the owner filter and returns every row. -/
theorem owner_scoping (tbl : Table) (A : String) (hA : A ≠ "") :
    get_objects tbl none (some A) false
      = (tbl.filter (fun r => rowMatch r ("user_email", Val.text A))).map normRow
    ∧ get_objects tbl none (some A) true = tbl.map normRow
    ∧ get_reminders tbl none none none (some A) false
      = (tbl.filter (fun r => rowMatch r ("user_email", Val.text A))).map normRow
    ∧ get_reminders tbl none none none (some A) true = tbl.map normRow
    ∧ (∀ r ∈ get_objects tbl none (some A) false,
        rowGet r "user_email" = some (Val.text A)) := by
  have hA' : (A != "") = true := by
    simp only [bne_iff_ne, ne_eq]
    exact hA
  have h1 : get_objects tbl none (some A) false
      = (tbl.filter (fun r => rowMatch r ("user_email", Val.text A))).map normRow := by
    simp [get_objects, optClause, ownerClause, hA']
  refine ⟨h1, ?_, ?_, ?_, ?_⟩
  · simp [get_objects, optClause, ownerClause, filter_const_true]
  · simp [get_reminders, optClause, ownerClause, hA']
  · simp [get_reminders, optClause, ownerClause, filter_const_true]
  · intro r hr
    rw [h1] at hr
    simp only [List.mem_map] at hr
    obtain ⟨r0, hr0, hrn⟩ := hr
    rw [List.mem_filter] at hr0
    have hm : (match rowGet r0 "user_email" with
        | some w => sqlEq w (Val.text A)
        | none => false) = true := hr0.2
    cases hg : rowGet r0 "user_email" with
    | none => rw [hg] at hm; simp at hm
    | some w =>
      rw [hg] at hm
      have hm' : sqlEq w (Val.text A) = true := hm
      rw [← hrn, rowGet_normRow r0 "user_email" (by decide), hg]
      exact congrArg some (sqlEq_text_right w A hm')

/-- C7 witness: the concrete two-owner table scoped to alice. -/
theorem owner_scoping_witness :
    get_objects demoObjects none (some "alice@example.com") false
      = (demoObjects.filter
          (fun r => rowMatch r ("user_email", Val.text "alice@example.com"))).map normRow :=
  (owner_scoping demoObjects "alice@example.com" (by decide)).1

theorem rowGet_rowSet (r : Row) (c c' : String) (v : Val) :
    rowGet (rowSet r c v) c' =
      if c = c' then (if (rowGet r c').isSome then some v else none)
      else rowGet r c' := by
  induction r with
  | nil =>
    show (none : Option Val) = _
    by_cases h : c = c' <;> simp [h, rowGet]
  | cons p ps ih =>
    obtain ⟨k, w⟩ := p
    show rowGet ((if k == c then (k, v) else (k, w)) :: rowSet ps c v) c'
        = if c = c' then (if (rowGet ((k, w) :: ps) c').isSome then some v else none)
          else rowGet ((k, w) :: ps) c'
    by_cases hkc : k = c
    · subst hkc
      simp only [beq_self_eq_true, if_true]
      rw [rowGet_cons, rowGet_cons]
      by_cases hkc' : k = c'
      · subst hkc'
        simp
      · have h1 : (k == c') = false := by simp [beq_eq_false_iff_ne, hkc']
        simp [h1, ih, hkc']
    · have hkc2 : (k == c) = false := by simp [beq_eq_false_iff_ne, hkc]
      simp only [hkc2, Bool.false_eq_true, if_false]
      rw [rowGet_cons, rowGet_cons]
      by_cases hkc' : k = c'
      · subst hkc'
        have hcc' : ¬(c = k) := fun e => hkc e.symm
        simp [hcc']
      · have h1 : (k == c') = false := by simp [beq_eq_false_iff_ne, hkc']
        simp [h1, ih]

theorem isSome_rowGet_rowSet (r : Row) (c c' : String) (v : Val) :
    (rowGet (rowSet r c v) c').isSome = (rowGet r c').isSome := by
  rw [rowGet_rowSet]
  by_cases h : c = c'
  · cases hq : rowGet r c' <;> simp [h, hq]
  · simp [h]

theorem lastVal_foldl (sets : List (String × Val)) (c : String) (a : Option Val) :
    sets.foldl (fun acc kv => if kv.1 == c then some kv.2 else acc) a
      = match lastVal sets c with
        | some v => some v
        | none => a := by
  induction sets generalizing a with
  | nil => simp [lastVal]
  | cons kv rest ih =>
    show rest.foldl _ (if kv.1 == c then some kv.2 else a) = _
    rw [ih]
    have hl : lastVal (kv :: rest) c
        = rest.foldl (fun acc q => if q.1 == c then some q.2 else acc)
            (if kv.1 == c then some kv.2 else none) := rfl
    rw [hl, ih]
    cases hrest : lastVal rest c <;> cases hk : (kv.1 == c) <;> simp [hk]

theorem lastVal_append (l1 l2 : List (String × Val)) (c : String) :
    lastVal (l1 ++ l2) c
      = match lastVal l2 c with
        | some v => some v
        | none => lastVal l1 c := by
  show (l1 ++ l2).foldl _ none = _
  rw [List.foldl_append]
  exact lastVal_foldl l2 c _

theorem rowGet_applySets (sets : List (String × Val)) (r : Row) (c : String) :
    rowGet (applySets sets r) c
      = match lastVal sets c with
        | some v => if (rowGet r c).isSome then some v else none
        | none => rowGet r c := by
  induction sets generalizing r with
  | nil => simp [applySets, lastVal]
  | cons kv rest ih =>
    show rowGet (applySets rest (rowSet r kv.1 kv.2)) c = _
    rw [ih]
    have hl : lastVal (kv :: rest) c
        = match lastVal rest c with
          | some v => some v
          | none => if kv.1 == c then some kv.2 else none := by
      show rest.foldl _ (if kv.1 == c then some kv.2 else none) = _
      exact lastVal_foldl rest c _
    rw [hl]
    cases hrest : lastVal rest c with
    | some v => simp [isSome_rowGet_rowSet]
    | none =>
      rw [rowGet_rowSet]
      by_cases hk : kv.1 = c
      · have hb : (kv.1 == c) = true := by simp [hk]
        simp only [hb, if_pos hk]
        cases hq : rowGet r c <;> simp [hq]
      · have hb : (kv.1 == c) = false := by simp [beq_eq_false_iff_ne, hk]
        simp [hb, hk]

theorem filterKwargs_nil_of_invalid (valid : List String) (kwargs : List (String × Val))
    (h : ∀ kv ∈ kwargs, valid.contains kv.1 = false) :
    filterKwargs valid kwargs = [] := by
  induction kwargs with
  | nil => rfl
  | cons a rest ih =>
    have ha := h a (by simp)
    have hrest : ∀ kv ∈ rest, valid.contains kv.1 = false := by
      intro kv hkv
      exact h kv (by simp [hkv])
    show List.filterMap _ (a :: rest) = []
    rw [List.filterMap_cons]
    simp only [ha, Bool.false_eq_true, if_false]
    exact ih hrest

theorem filterKwargs_mem (valid : List String) (kwargs : List (String × Val))
    (k : String) (v : Val) (hm : (k, v) ∈ kwargs) (hv : valid.contains k = true) :
    (k, if k == "object_type" then normalizeVal v else v) ∈ filterKwargs valid kwargs := by
  induction kwargs with
  | nil => simp at hm
  | cons a rest ih =>
    show _ ∈ List.filterMap _ (a :: rest)
    rw [List.filterMap_cons]
    rcases List.mem_cons.mp hm with he | ht
    · subst he
      simp only [hv, if_true]
      exact List.mem_cons_self _ _
    · cases hc : valid.contains a.1 <;> simp only [hc, Bool.false_eq_true, if_false, if_true]
      · exact ih ht
      · exact List.mem_cons_of_mem _ (ih ht)

theorem filterMap_filter_of_none {α β : Type} (f : α → Option β) (p : α → Bool)
    (hp : ∀ a, p a = false → f a = none) (l : List α) :
    List.filterMap f (l.filter p) = List.filterMap f l := by
  induction l with
  | nil => rfl
  | cons a rest ih =>
    rw [List.filter_cons]
    cases h : p a
    · rw [if_neg (by simp [h]), List.filterMap_cons, hp a h]
      exact ih
    · rw [if_pos rfl, List.filterMap_cons, List.filterMap_cons]
      cases hf : f a
      · exact ih
      · show _ :: List.filterMap f (rest.filter p) = _
        rw [ih]

theorem filterKwargs_filter (valid : List String) (kwargs : List (String × Val)) :
    filterKwargs valid (kwargs.filter (fun kv => valid.contains kv.1))
      = filterKwargs valid kwargs := by
  refine filterMap_filter_of_none _ _ ?_ kwargs
  intro a ha
  show (if valid.contains a.1 then _ else none) = none
  rw [if_neg (fun hc => by rw [ha] at hc; exact Bool.false_ne_true hc)]

/-- C6: Update(id, fields) with at least one schema field silently drops every
field name outside the entity's column set (removing the unknown fields first
changes nothing), updates exactly the supplied schema fields (the value under
object_type being normalised) plus, for Equipment Objects, the refreshed
last_updated timestamp, leaves every other column and every other row
unchanged, and returns whether a row with that id was found; update_reminder
behaves the same without the timestamp refresh. -/
theorem update_partial_fields_contract
    (tbl : Table) (idv : Val) (kwargs : List (String × Val)) (now : String)
    (hne : filterKwargs objectsCols kwargs ≠ [])
    (hneR : filterKwargs remindersCols kwargs ≠ []) :
    ((update_object tbl idv kwargs now).2
        = tbl.any (fun r => rowMatch r ("object_id", idv)))
    ∧ (update_object tbl idv (kwargs.filter (fun kv => objectsCols.contains kv.1)) now
        = update_object tbl idv kwargs now)
    ∧ (update_object tbl idv kwargs now).1.length = tbl.length
    ∧ (∀ (i : Nat) (r0 : Row), tbl[i]? = some r0 → rowMatch r0 ("object_id", idv) = false →
        (update_object tbl idv kwargs now).1[i]? = some r0)
    ∧ (∀ (i : Nat) (r0 r1 : Row), tbl[i]? = some r0 →
        (update_object tbl idv kwargs now).1[i]? = some r1 →
        rowMatch r0 ("object_id", idv) = true →
        (rowGet r1 "last_updated"
            = if (rowGet r0 "last_updated").isSome then some (Val.text now) else none)
        ∧ (∀ c, c ≠ "last_updated" →
            rowGet r1 c
              = match lastVal (filterKwargs objectsCols kwargs) c with
                | some v => if (rowGet r0 c).isSome then some v else none
                | none => rowGet r0 c))
    ∧ (∀ (k : String) (v : Val), (k, v) ∈ kwargs → objectsCols.contains k = true →
        (k, if k == "object_type" then normalizeVal v else v)
          ∈ filterKwargs objectsCols kwargs)
    ∧ ((update_reminder tbl idv kwargs).2
        = tbl.any (fun r => rowMatch r ("reminder_id", idv)))
    ∧ (∀ (i : Nat) (r0 r1 : Row), tbl[i]? = some r0 →
        (update_reminder tbl idv kwargs).1[i]? = some r1 →
        rowMatch r0 ("reminder_id", idv) = true →
        ∀ c, rowGet r1 c
          = match lastVal (filterKwargs remindersCols kwargs) c with
            | some v => if (rowGet r0 c).isSome then some v else none
            | none => rowGet r0 c) := by
  have hE : (filterKwargs objectsCols kwargs).isEmpty = false := by
    cases hs : filterKwargs objectsCols kwargs with
    | nil => exact absurd hs hne
    | cons a l => rfl
  have hER : (filterKwargs remindersCols kwargs).isEmpty = false := by
    cases hs : filterKwargs remindersCols kwargs with
    | nil => exact absurd hs hneR
    | cons a l => rfl
  have hO : update_object tbl idv kwargs now
      = (tbl.map (fun r => if rowMatch r ("object_id", idv) then
            applySets (filterKwargs objectsCols kwargs ++ [("last_updated", Val.text now)]) r
          else r),
         tbl.any (fun r => rowMatch r ("object_id", idv))) := by
    show updateTable _ _ _ _ _ _ = _
    rw [updateTable]
    simp only [hE, Bool.false_eq_true, if_false]
  have hR : update_reminder tbl idv kwargs
      = (tbl.map (fun r => if rowMatch r ("reminder_id", idv) then
            applySets (filterKwargs remindersCols kwargs ++ []) r
          else r),
         tbl.any (fun r => rowMatch r ("reminder_id", idv))) := by
    show updateTable _ _ _ _ _ _ = _
    rw [updateTable]
    simp only [hER, Bool.false_eq_true, if_false]
  refine ⟨by rw [hO], ?_, by rw [hO]; exact List.length_map _ _, ?_, ?_, ?_, by rw [hR], ?_⟩
  · show updateTable _ _ _ _ _ _ = updateTable _ _ _ _ _ _
    rw [updateTable, updateTable, filterKwargs_filter]
  · intro i r0 h0 hm
    rw [hO]
    show (tbl.map _)[i]? = some r0
    rw [List.getElem?_map, h0]
    simp only [Option.map_some']
    rw [if_neg (fun hc => by rw [hm] at hc; exact Bool.false_ne_true hc)]
  · intro i r0 r1 h0 h1 hm
    rw [hO] at h1
    rw [List.getElem?_map, h0] at h1
    simp only [Option.map_some', Option.some_inj] at h1
    rw [if_pos hm] at h1
    subst h1
    constructor
    · rw [rowGet_applySets, lastVal_append]
      have : lastVal [("last_updated", Val.text now)] "last_updated"
          = some (Val.text now) := rfl
      rw [this]
    · intro c hc
      rw [rowGet_applySets, lastVal_append]
      have : lastVal [("last_updated", Val.text now)] c = none := by
        show (if ("last_updated" : String) == c then some (Val.text now) else none) = none
        rw [if_neg (fun hb => hc (by
          have := eq_of_beq hb
          exact this.symm))]
      rw [this]
  · intro k v hm hv
    exact filterKwargs_mem objectsCols kwargs k v hm hv
  · intro i r0 r1 h0 h1 hm
    rw [hR] at h1
    rw [List.getElem?_map, h0] at h1
    simp only [Option.map_some', Option.some_inj] at h1
    rw [if_pos hm] at h1
    subst h1
    intro c
    rw [List.append_nil, rowGet_applySets]

/-- C6 witness: passing an unknown UI field alongside name changes nothing
relative to passing name alone. -/
theorem update_partial_fields_contract_witness :
    update_object demoObjects (Val.text "VEH-0001")
        ([("unknown_field", Val.int 7), ("name", Val.text "new"),
          ("notes", Val.text "x")].filter
          (fun kv => objectsCols.contains kv.1)) "2026-10-12 08:00:00"
      = update_object demoObjects (Val.text "VEH-0001")
          [("unknown_field", Val.int 7), ("name", Val.text "new"),
           ("notes", Val.text "x")] "2026-10-12 08:00:00" :=
  (update_partial_fields_contract demoObjects (Val.text "VEH-0001")
      [("unknown_field", Val.int 7), ("name", Val.text "new"), ("notes", Val.text "x")]
      "2026-10-12 08:00:00" (by decide) (by decide)).2.1

/-- C10: an update whose supplied fields are all outside the entity's schema
returns False and performs no write at all: the table is returned unchanged,
so no column of any row changes and (for Equipment Objects) the last_updated
timestamp is not refreshed, even when a row with that id exists. -/
theorem update_no_valid_fields_noop
    (tbl : Table) (idv : Val) (kwargs : List (String × Val)) (now : String)
    (h : ∀ kv ∈ kwargs, objectsCols.contains kv.1 = false)
    (h2 : ∀ kv ∈ kwargs, remindersCols.contains kv.1 = false) :
    update_object tbl idv kwargs now = (tbl, false)
    ∧ update_reminder tbl idv kwargs = (tbl, false) := by
  have e1 : filterKwargs objectsCols kwargs = [] :=
    filterKwargs_nil_of_invalid objectsCols kwargs h
  have e2 : filterKwargs remindersCols kwargs = [] :=
    filterKwargs_nil_of_invalid remindersCols kwargs h2
  constructor
  · show updateTable _ _ _ _ _ _ = _
    rw [updateTable]
    simp only [e1]
    rfl
  · show updateTable _ _ _ _ _ _ = _
    rw [updateTable]
    simp only [e2]
    rfl

/-- C10 witness: an update of VEH-0001 (which exists) supplying only an
unknown field leaves the concrete objects table untouched and returns False. -/
theorem update_no_valid_fields_noop_witness :
    update_object demoObjects (Val.text "VEH-0001") [("bogus", Val.int 1)]
        "2026-10-12 08:00:00" = (demoObjects, false) :=
  (update_no_valid_fields_noop demoObjects (Val.text "VEH-0001")
      [("bogus", Val.int 1)] "2026-10-12 08:00:00" (by decide) (by decide)).1

theorem eligible_unfold (today : Date) (r : Row) (ds : String) (d : Date)
    (hdate : rowGet r "reminder_date" = some (Val.text ds))
    (hparse : parseDate ds = some d) :
    eligible today r
      = (truthyField r "email_notification"
          && decide (rowGet r "status" = some (Val.text "Pending"))
          && !truthyField r "email_sent"
          && dateLe d today) := by
  simp only [eligible, hdate, hparse]

theorem eligible_of_email_sent (today : Date) (r : Row)
    (h : truthyField r "email_sent" = true) : eligible today r = false := by
  simp [eligible, h]

theorem foldl_processOne_attempts (today : Date) (tr : Row → Bool) (df : List Row) :
    ∀ (n : Nat) (st : Table) (a : List Row),
      (df.foldl (processOne today tr) ⟨n, st, a⟩).attempts
        = a ++ df.filter (eligible today) := by
  induction df with
  | nil =>
    intro n st a
    simp
  | cons r rest ih =>
    intro n st a
    show (rest.foldl _ (processOne today tr ⟨n, st, a⟩ r)).attempts = _
    rw [List.filter_cons]
    cases he : eligible today r
    · rw [show processOne today tr ⟨n, st, a⟩ r = ⟨n, st, a⟩ from by
        simp [processOne, he]]
      rw [ih]
      simp
    · cases ht : tr r
      · rw [show processOne today tr ⟨n, st, a⟩ r = ⟨n, st, a ++ [r]⟩ from by
          simp [processOne, he, ht]]
        rw [ih]
        simp
      · rw [show processOne today tr ⟨n, st, a⟩ r
            = ⟨n + 1,
               (update_reminder st (reminderIdOf r) [("email_sent", Val.int 1)]).1,
               a ++ [r]⟩ from by
          simp [processOne, he, ht]]
        rw [ih]
        simp

theorem foldl_processOne_sent (today : Date) (tr : Row → Bool) (df : List Row) :
    ∀ (n : Nat) (st : Table) (a : List Row),
      (df.foldl (processOne today tr) ⟨n, st, a⟩).sent
        = n + (df.filter (fun r => eligible today r && tr r)).length := by
  induction df with
  | nil =>
    intro n st a
    simp
  | cons r rest ih =>
    intro n st a
    show (rest.foldl _ (processOne today tr ⟨n, st, a⟩ r)).sent = _
    rw [List.filter_cons]
    cases he : eligible today r
    · rw [show processOne today tr ⟨n, st, a⟩ r = ⟨n, st, a⟩ from by
        simp [processOne, he]]
      rw [ih]
      simp [he]
    · cases ht : tr r
      · rw [show processOne today tr ⟨n, st, a⟩ r = ⟨n, st, a ++ [r]⟩ from by
          simp [processOne, he, ht]]
        rw [ih]
        simp [he, ht]
      · rw [show processOne today tr ⟨n, st, a⟩ r
            = ⟨n + 1,
               (update_reminder st (reminderIdOf r) [("email_sent", Val.int 1)]).1,
               a ++ [r]⟩ from by
          simp [processOne, he, ht]]
        rw [ih]
        simp [he, ht]
        omega

theorem check_and_send_attempts (today : Date) (tr : Row → Bool)
    (df : List Row) (store : Table) :
    (check_and_send true today tr df store).attempts = df.filter (eligible today) := by
  rw [check_and_send]
  cases df with
  | nil => rfl
  | cons r rest =>
    rw [if_neg (by simp)]
    exact foldl_processOne_attempts today tr (r :: rest) 0 store []

theorem check_and_send_sent (today : Date) (tr : Row → Bool)
    (df : List Row) (store : Table) :
    (check_and_send true today tr df store).sent
      = (df.filter (fun r => eligible today r && tr r)).length := by
  rw [check_and_send]
  cases df with
  | nil => rfl
  | cons r rest =>
    rw [if_neg (by simp)]
    rw [foldl_processOne_sent today tr (r :: rest) 0 store []]
    omega

/-- C2: in a poll with email enabled, a reminder row with a well-formed target
date is attempted exactly when email_notification is truthy, status equals
"Pending", email_sent is falsy and today is on or after the target date; a
successful delivery increments the count and rewrites the store through
update_reminder with email_sent = 1, which sets only the email_sent column of
the matching row (status and every other column untouched, other rows
untouched) and makes it truthy; and a reminder whose email_sent is truthy is
never attempted by any poll, so the second poll after a success sends nothing
more for it. -/
theorem reminder_poll_contract (today : Date) (tr : Row → Bool)
    (df : List Row) (store : Table) (r : Row) (ds : String) (d : Date)
    (hdate : rowGet r "reminder_date" = some (Val.text ds))
    (hparse : parseDate ds = some d) :
    (r ∈ (check_and_send true today tr df store).attempts
      ↔ r ∈ df ∧ (truthyField r "email_notification"
            && decide (rowGet r "status" = some (Val.text "Pending"))
            && !truthyField r "email_sent"
            && dateLe d today) = true)
    ∧ (∀ acc : PollResult, eligible today r = true → tr r = true →
        (processOne today tr acc r).store
            = (update_reminder acc.store (reminderIdOf r)
                [("email_sent", Val.int 1)]).1
        ∧ (processOne today tr acc r).sent = acc.sent + 1)
    ∧ (∀ (st : Table) (idv : Val) (i : Nat) (w0 w1 : Row),
        st[i]? = some w0 →
        (update_reminder st idv [("email_sent", Val.int 1)]).1[i]? = some w1 →
        (rowMatch w0 ("reminder_id", idv) = false → w1 = w0)
        ∧ (rowMatch w0 ("reminder_id", idv) = true →
            (rowGet w1 "email_sent"
                = if (rowGet w0 "email_sent").isSome then some (Val.int 1) else none)
            ∧ (∀ c, c ≠ "email_sent" → rowGet w1 c = rowGet w0 c)
            ∧ ((rowGet w0 "email_sent").isSome → truthyField w1 "email_sent" = true)))
    ∧ (∀ (df2 : List Row) (store2 : Table) (r2 : Row), r2 ∈ df2 →
        truthyField r2 "email_sent" = true →
        r2 ∉ (check_and_send true today tr df2 store2).attempts) := by
  have hupd : update_reminder = fun st idv kwargs => updateTable "reminder_id"
      remindersCols [] st idv kwargs := rfl
  refine ⟨?_, ?_, ?_, ?_⟩
  · rw [check_and_send_attempts, List.mem_filter,
      eligible_unfold today r ds d hdate hparse]
  · intro acc he ht
    constructor <;> simp [processOne, he, ht]
  · intro st idv i w0 w1 h0 h1
    have hsets : filterKwargs remindersCols [("email_sent", Val.int 1)]
        = [("email_sent", Val.int 1)] := rfl
    have hu : (update_reminder st idv [("email_sent", Val.int 1)]).1
        = st.map (fun w => if rowMatch w ("reminder_id", idv) then
            applySets ([("email_sent", Val.int 1)] ++ []) w else w) := by
      show (updateTable _ _ _ _ _ _).1 = _
      rw [updateTable, hsets]
      rfl
    rw [hu, List.getElem?_map, h0] at h1
    simp only [Option.map_some', Option.some_inj] at h1
    constructor
    · intro hm
      rw [if_neg (fun hc => by rw [hm] at hc; exact Bool.false_ne_true hc)] at h1
      exact h1.symm
    · intro hm
      rw [if_pos hm] at h1
      subst h1
      refine ⟨?_, ?_, ?_⟩
      · rw [List.append_nil, rowGet_applySets]
        have hl : lastVal [("email_sent", Val.int 1)] "email_sent"
            = some (Val.int 1) := rfl
        rw [hl]
      · intro c hc
        rw [List.append_nil, rowGet_applySets]
        have hl : lastVal [("email_sent", Val.int 1)] c = none := by
          show (if ("email_sent" : String) == c then some (Val.int 1) else none) = none
          rw [if_neg (fun hb => hc (eq_of_beq hb).symm)]
        rw [hl]
      · intro hsome
        rw [List.append_nil]
        show (match rowGet (applySets [("email_sent", Val.int 1)] w0) "email_sent" with
          | some v => pyTruthy v
          | none => false) = true
        rw [rowGet_applySets]
        have hl : lastVal [("email_sent", Val.int 1)] "email_sent"
            = some (Val.int 1) := rfl
        rw [hl]
        simp only [hsome, if_true]
        rfl
  · intro df2 store2 r2 hmem hsent hin
    rw [check_and_send_attempts] at hin
    have := (List.mem_filter.mp hin).2
    rw [eligible_of_email_sent today r2 hsent] at this
    exact Bool.false_ne_true this

/-- C2 witness: the demo reminder (notification on, Pending, unsent, due
yesterday) is attempted when polled on 2026-10-12 with a succeeding transport. -/
theorem reminder_poll_contract_witness :
    demoReminderA ∈ (check_and_send true ⟨2026, 10, 12⟩ (fun _ => true)
      [demoReminderA] demoReminders).attempts :=
  (reminder_poll_contract ⟨2026, 10, 12⟩ (fun _ => true) [demoReminderA]
      demoReminders demoReminderA "2026-10-11" ⟨2026, 10, 11⟩ rfl rfl).1.mpr
    (by exact ⟨by decide, by decide⟩)

/-- C8: a transport failure for one reminder leaves the counter and the store
exactly as they were (only the attempt is recorded), the set of attempted
rows of a poll is the eligibility filter of the frame and does not depend on
the transport at all (so one failure never blocks later reminders), and the
poll returns the count of eligible reminders whose delivery succeeded. -/
theorem notifier_failure_containment (today : Date) (tr tr2 : Row → Bool) :
    (∀ (acc : PollResult) (r : Row), eligible today r = true → tr r = false →
      processOne today tr acc r
        = { sent := acc.sent, store := acc.store, attempts := acc.attempts ++ [r] })
    ∧ (∀ (df : List Row) (store : Table),
        (check_and_send true today tr df store).attempts = df.filter (eligible today))
    ∧ (∀ (df : List Row) (store : Table),
        (check_and_send true today tr df store).attempts
          = (check_and_send true today tr2 df store).attempts)
    ∧ (∀ (df : List Row) (store : Table),
        (check_and_send true today tr df store).sent
          = (df.filter (fun r => eligible today r && tr r)).length) := by
  refine ⟨?_, ?_, ?_, ?_⟩
  · intro acc r he ht
    simp [processOne, he, ht]
  · intro df store
    exact check_and_send_attempts today tr df store
  · intro df store
    rw [check_and_send_attempts, check_and_send_attempts]
  · intro df store
    exact check_and_send_sent today tr df store

/-- C8 witness: a failing transport on the eligible demo reminder keeps the
counter at zero and the reminders table unchanged while the attempt is made. -/
theorem notifier_failure_containment_witness :
    processOne ⟨2026, 10, 12⟩ (fun _ => false) ⟨0, demoReminders, []⟩ demoReminderA
      = { sent := 0, store := demoReminders, attempts := [] ++ [demoReminderA] } :=
  (notifier_failure_containment ⟨2026, 10, 12⟩ (fun _ => false) (fun _ => true)).1
    ⟨0, demoReminders, []⟩ demoReminderA (by decide) rfl

/-- C1: deleting an existing fault report removes the report row and every one
of its photo rows in the same logical operation, returns that a row existed,
and leaves all other reports and photos in place; afterwards no photo owned
by that fault report remains in the store. -/
theorem delete_fault_report_cascade_contract (s : FaultStore) (fid : Val)
    (hex : s.reports.any (fun r => rowMatch r ("fault_id", fid)) = true) :
    ((delete_fault_report_with_photos s fid).2 = true)
    ∧ (∀ r ∈ (delete_fault_report_with_photos s fid).1.reports,
        rowMatch r ("fault_id", fid) = false)
    ∧ (∀ p ∈ (delete_fault_report_with_photos s fid).1.photos,
        rowMatch p ("fault_id", fid) = false)
    ∧ (∀ r ∈ s.reports, rowMatch r ("fault_id", fid) = false →
        r ∈ (delete_fault_report_with_photos s fid).1.reports)
    ∧ (∀ p ∈ s.photos, rowMatch p ("fault_id", fid) = false →
        p ∈ (delete_fault_report_with_photos s fid).1.photos) := by
  have hre : (delete_fault_report_with_photos s fid).1.reports
      = s.reports.filter (fun r => !rowMatch r ("fault_id", fid)) := rfl
  have hph : (delete_fault_report_with_photos s fid).1.photos
      = s.photos.filter (fun p => !rowMatch p ("fault_id", fid)) := rfl
  have hret : (delete_fault_report_with_photos s fid).2
      = decide (0 < s.reports.countP (fun r => rowMatch r ("fault_id", fid))) := rfl
  refine ⟨?_, ?_, ?_, ?_, ?_⟩
  · rw [hret, countP_decide_any]
    exact hex
  · intro r hr
    rw [hre] at hr
    have := (List.mem_filter.mp hr).2
    simpa using this
  · intro p hp
    rw [hph] at hp
    have := (List.mem_filter.mp hp).2
    simpa using this
  · intro r hr hm
    rw [hre]
    exact List.mem_filter.mpr ⟨hr, by simp [hm]⟩
  · intro p hp hm
    rw [hph]
    exact List.mem_filter.mpr ⟨hp, by simp [hm]⟩

/-- C1 witness: deleting FLT-00001 from the concrete store reports success. -/
theorem delete_fault_report_cascade_contract_witness :
    (delete_fault_report_with_photos demoFaultStore (Val.text "FLT-00001")).2 = true :=
  (delete_fault_report_cascade_contract demoFaultStore (Val.text "FLT-00001")
      (by decide)).1

theorem digitVal_digitChar (d : Nat) (h : d < 10) : digitVal (digitChar d) = d := by
  interval_cases d <;> rfl

theorem isDigit_digitChar (d : Nat) (h : d < 10) : (digitChar d).isDigit = true := by
  interval_cases d <;> rfl

theorem natDigits_ne_nil (n : Nat) : natDigits n ≠ [] := by
  rw [natDigits]
  by_cases h : n < 10
  · rw [dif_pos h]
    simp
  · rw [dif_neg h]
    simp

theorem natDigits_all (n : Nat) : ∀ c ∈ natDigits n, c.isDigit = true := by
  induction n using Nat.strong_induction_on with
  | _ n ih =>
    intro c hc
    rw [natDigits] at hc
    by_cases h : n < 10
    · rw [dif_pos h] at hc
      simp only [List.mem_singleton] at hc
      subst hc
      exact isDigit_digitChar n h
    · rw [dif_neg h] at hc
      rcases List.mem_append.mp hc with h1 | h2
      · exact ih (n / 10) (Nat.div_lt_self (by omega) (by omega)) c h1
      · simp only [List.mem_singleton] at h2
        subst h2
        exact isDigit_digitChar (n % 10) (Nat.mod_lt n (by omega))

theorem foldl_digits_natDigits (n : Nat) : ∀ a : Nat,
    (natDigits n).foldl (fun x c => x * 10 + digitVal c) a
      = a * 10 ^ (natDigits n).length + n := by
  induction n using Nat.strong_induction_on with
  | _ n ih =>
    intro a
    rw [natDigits]
    by_cases h : n < 10
    · rw [dif_pos h]
      show a * 10 + digitVal (digitChar n) = a * 10 ^ 1 + n
      rw [digitVal_digitChar n h, pow_one]
    · rw [dif_neg h]
      rw [List.foldl_append, ih (n / 10) (Nat.div_lt_self (by omega) (by omega)) a]
      show (a * 10 ^ (natDigits (n / 10)).length + n / 10) * 10
          + digitVal (digitChar (n % 10)) = _
      rw [digitVal_digitChar (n % 10) (Nat.mod_lt n (by omega)),
        List.length_append, List.length_singleton]
      calc (a * 10 ^ (natDigits (n / 10)).length + n / 10) * 10 + n % 10
          = a * (10 ^ (natDigits (n / 10)).length * 10)
            + (10 * (n / 10) + n % 10) := by ring
        _ = a * 10 ^ ((natDigits (n / 10)).length + 1) + n := by
            rw [pow_succ, Nat.div_add_mod]

theorem foldl_digit_zeros (k : Nat) :
    (List.replicate k '0').foldl (fun x c => x * 10 + digitVal c) 0 = 0 := by
  induction k with
  | zero => rfl
  | succ k ih =>
    rw [List.replicate_succ]
    show (List.replicate k '0').foldl (fun x c => x * 10 + digitVal c) (0 * 10 + digitVal '0') = 0
    exact ih

theorem takeWhile_all_eq (p : Char → Bool) (l : List Char)
    (h : ∀ c ∈ l, p c = true) : l.takeWhile p = l := by
  induction l with
  | nil => rfl
  | cons c rest ih =>
    rw [List.takeWhile_cons_of_pos (h c (List.mem_cons_self c rest))]
    rw [ih (fun x hx => h x (List.mem_cons_of_mem c hx))]

theorem castDigits_pad (k : Nat) (n : Nat) :
    castDigits (List.replicate k '0' ++ natDigits n) = n := by
  have hall : ∀ c ∈ List.replicate k '0' ++ natDigits n, c.isDigit = true := by
    intro c hc
    rcases List.mem_append.mp hc with h1 | h2
    · rw [List.eq_of_mem_replicate h1]
      rfl
    · exact natDigits_all n c h2
  rw [castDigits, takeWhile_all_eq _ _ hall, List.foldl_append, foldl_digit_zeros,
    foldl_digits_natDigits n 0]
  omega

theorem digit_not_dash (c : Char) (h : c.isDigit = true) : (c == '-') = false := by
  cases hq : (c == '-')
  · rfl
  · rw [eq_of_beq hq] at h
    exact absurd h (by decide)

theorem digit_not_plus (c : Char) (h : c.isDigit = true) : (c == '+') = false := by
  cases hq : (c == '+')
  · rfl
  · rw [eq_of_beq hq] at h
    exact absurd h (by decide)

theorem castInt_pad (k : Nat) (n : Nat) :
    castInt (String.mk (List.replicate k '0' ++ natDigits n)) = (n : Int) := by
  cases hl : List.replicate k '0' ++ natDigits n with
  | nil =>
    exfalso
    rcases List.append_eq_nil.mp hl with ⟨h1, h2⟩
    exact natDigits_ne_nil n h2
  | cons c cs =>
    have hcd : c.isDigit = true := by
      have : c ∈ List.replicate k '0' ++ natDigits n := by
        rw [hl]
        exact List.mem_cons_self c cs
      rcases List.mem_append.mp this with h1 | h2
      · rw [List.eq_of_mem_replicate h1]
        rfl
      · exact natDigits_all n c h2
    show (if c == '-' then -(castDigits cs : Int)
        else if c == '+' then (castDigits cs : Int)
        else (castDigits (c :: cs) : Int)) = (n : Int)
    rw [if_neg (fun hx => by rw [digit_not_dash c hcd] at hx; exact Bool.false_ne_true hx)]
    rw [if_neg (fun hx => by rw [digit_not_plus c hcd] at hx; exact Bool.false_ne_true hx)]
    rw [← hl, castDigits_pad]

theorem intPad_of_nonneg (w : Nat) (i : Int) (h : 0 ≤ i) :
    intPad w i = zeroPadNat w i.toNat := by
  rw [intPad, if_neg (by omega)]

theorem castInt_substr_id (pre : List Char) (hpre : pre.length = 4)
    (w : Nat) (i : Int) (hi : 0 ≤ i) :
    castInt (sqlSubstrFrom (String.mk (pre ++ (intPad w i).data)) 5) = i := by
  rw [intPad_of_nonneg w i hi]
  show castInt (String.mk ((pre ++ (zeroPadNat w i.toNat).data).drop 4)) = i
  rw [List.drop_left' hpre]
  show castInt (String.mk
      (List.replicate (w - (natDigits i.toNat).length) '0' ++ natDigits i.toNat)) = i
  rw [castInt_pad]
  exact Int.toNat_of_nonneg hi

theorem foldl_max_le_self (as : List Int) : ∀ a : Int, a ≤ as.foldl max a := by
  induction as with
  | nil =>
    intro a
    simp
  | cons x xs ih =>
    intro a
    exact le_trans (le_max_left a x) (ih (max a x))

theorem mem_le_foldl_max (as : List Int) : ∀ (a x : Int), x ∈ as → x ≤ as.foldl max a := by
  induction as with
  | nil =>
    intro a x hx
    simp at hx
  | cons y ys ih =>
    intro a x hx
    rcases List.mem_cons.mp hx with he | ht
    · subst he
      exact le_trans (le_max_right a x) (foldl_max_le_self ys (max a x))
    · exact ih (max a y) x ht

theorem le_maxOr0 (l : List Int) (x : Int) (hx : x ∈ l) : x ≤ maxOr0 l := by
  cases l with
  | nil => simp at hx
  | cons a as =>
    rcases List.mem_cons.mp hx with he | ht
    · subst he
      exact foldl_max_le_self as x
    · exact mem_le_foldl_max as a x ht

theorem maxOr0_nonneg (l : List Int) (h : ∀ x ∈ l, 0 ≤ x) : 0 ≤ maxOr0 l := by
  cases l with
  | nil => simp [maxOr0]
  | cons a as => exact le_trans (h a (by simp)) (foldl_max_le_self as a)

theorem maxOr0_append_one (l : List Int) (x : Int) (h : maxOr0 l ≤ x) :
    maxOr0 (l ++ [x]) = x := by
  cases l with
  | nil => rfl
  | cons a as =>
    show (as ++ [x]).foldl max a = x
    rw [List.foldl_append]
    exact max_eq_right h

theorem serviceSuffixes_append (tbl : Table) (row : Row) (sid : String)
    (h : rowGet row "service_id" = some (Val.text sid)) :
    serviceSuffixes (tbl ++ [row])
      = serviceSuffixes tbl ++ [castInt (sqlSubstrFrom sid 5)] := by
  show List.filterMap _ (tbl ++ [row]) = _
  rw [List.filterMap_append]
  simp only [List.filterMap_cons, List.filterMap_nil, h]
  rfl

theorem objectSuffixes_append (tbl : Table) (row : Row) (t : String) (oid : String)
    (h1 : rowGet row "object_type" = some (Val.text t))
    (h2 : rowGet row "object_id" = some (Val.text oid)) :
    objectSuffixes (tbl ++ [row]) (some t)
      = objectSuffixes tbl (some t) ++ [castInt (sqlSubstrFrom oid 5)] := by
  show List.filterMap _ (tbl ++ [row]) = _
  rw [List.filterMap_append]
  have hm : rowMatch row ("object_type", Val.text t) = true := by
    show (match rowGet row "object_type" with
      | some w => sqlEq w (Val.text t)
      | none => false) = true
    rw [h1]
    show (t == t) = true
    exact beq_self_eq_true t
  simp only [List.filterMap_cons, List.filterMap_nil, hm, if_true, h2]
  rfl

/-- C4: the generated id is the kind's prefix plus the zero-padded successor
of the maximum parsed numeric suffix of the existing ids of that kind (0 when
no rows exist): "SVC-" with width-5 padding over all services, and
str(normalized category)[:3].upper() with "-" and width-4 padding over the
objects of that category.  The fresh suffix strictly exceeds every parsed
suffix already present, so suffix numbers freed by deletions are never reused
while a higher suffix exists; and two sequential adds produce distinct,
strictly increasing suffixes (stated for tables whose parsed suffixes are
non-negative, as all generated ids are, and for objects with a normalised
category of at least three characters, so the prefix has its fixed width). -/
theorem id_generation_contract :
    (∀ (tbl : Table) (x : Int), x ∈ serviceSuffixes tbl →
        x < maxOr0 (serviceSuffixes tbl) + 1)
    ∧ (∀ (tbl : Table) (oty : Option String) (x : Int), x ∈ objectSuffixes tbl oty →
        x < maxOr0 (objectSuffixes tbl oty) + 1)
    ∧ (∀ (tbl : Table) (oid : Val) (ot : Option String)
          (sn iv de stz nts emr mu ue : Val) (now today : String),
        (add_service tbl oid ot sn iv de stz nts emr mu ue now today).2
          = String.mk (['S', 'V', 'C', '-']
              ++ (intPad 5 (maxOr0 (serviceSuffixes tbl) + 1)).data))
    ∧ (∀ (tbl : Table) (ot : Option String) (nm de stz ue : Val) (now : String),
        (add_object tbl ot nm de stz ue now).2
          = String.mk ((pyUpper (take3 (pyStr (normalize_object_type ot)))).data
              ++ ['-']
              ++ (intPad 4
                  (maxOr0 (objectSuffixes tbl (normalize_object_type ot)) + 1)).data))
    ∧ (∀ (tbl : Table) (oid : Val) (ot : Option String)
          (sn iv de stz nts emr mu ue : Val) (now today : String),
        (∀ x ∈ serviceSuffixes tbl, 0 ≤ x) →
        castInt (sqlSubstrFrom
            (add_service tbl oid ot sn iv de stz nts emr mu ue now today).2 5)
          < castInt (sqlSubstrFrom
              (add_service (add_service tbl oid ot sn iv de stz nts emr mu ue now today).1
                oid ot sn iv de stz nts emr mu ue now today).2 5)
        ∧ (add_service tbl oid ot sn iv de stz nts emr mu ue now today).2
            ≠ (add_service (add_service tbl oid ot sn iv de stz nts emr mu ue now today).1
                oid ot sn iv de stz nts emr mu ue now today).2)
    ∧ (∀ (tbl : Table) (ot : Option String) (nm de stz ue : Val) (now : String)
          (t : String), normalize_object_type ot = some t →
        3 ≤ t.data.length →
        (∀ x ∈ objectSuffixes tbl (some t), 0 ≤ x) →
        castInt (sqlSubstrFrom (add_object tbl ot nm de stz ue now).2 5)
          < castInt (sqlSubstrFrom
              (add_object (add_object tbl ot nm de stz ue now).1 ot nm de stz ue now).2 5)
        ∧ (add_object tbl ot nm de stz ue now).2
            ≠ (add_object (add_object tbl ot nm de stz ue now).1 ot nm de stz ue now).2) := by
  refine ⟨?_, ?_, ?_, ?_, ?_, ?_⟩
  · intro tbl x hx
    have := le_maxOr0 _ x hx
    omega
  · intro tbl oty x hx
    have := le_maxOr0 _ x hx
    omega
  · intro tbl oid ot sn iv de stz nts emr mu ue now today
    rfl
  · intro tbl ot nm de stz ue now
    rfl
  · intro tbl oid ot sn iv de stz nts emr mu ue now today hnn
    have hm0 : 0 ≤ maxOr0 (serviceSuffixes tbl) := maxOr0_nonneg _ hnn
    have c1 : castInt (sqlSubstrFrom
        (add_service tbl oid ot sn iv de stz nts emr mu ue now today).2 5)
        = maxOr0 (serviceSuffixes tbl) + 1 :=
      castInt_substr_id ['S', 'V', 'C', '-'] rfl 5 _ (by omega)
    have hsfx : serviceSuffixes
        (add_service tbl oid ot sn iv de stz nts emr mu ue now today).1
        = serviceSuffixes tbl
          ++ [castInt (sqlSubstrFrom
              (add_service tbl oid ot sn iv de stz nts emr mu ue now today).2 5)] :=
      serviceSuffixes_append tbl _ _ rfl
    have hm2 : maxOr0 (serviceSuffixes
        (add_service tbl oid ot sn iv de stz nts emr mu ue now today).1)
        = maxOr0 (serviceSuffixes tbl) + 1 := by
      rw [hsfx, c1]
      exact maxOr0_append_one _ _ (by omega)
    have c2 : castInt (sqlSubstrFrom
        (add_service (add_service tbl oid ot sn iv de stz nts emr mu ue now today).1
          oid ot sn iv de stz nts emr mu ue now today).2 5)
        = maxOr0 (serviceSuffixes
            (add_service tbl oid ot sn iv de stz nts emr mu ue now today).1) + 1 :=
      castInt_substr_id ['S', 'V', 'C', '-'] rfl 5 _ (by rw [hm2]; omega)
    constructor
    · rw [c1, c2, hm2]
      omega
    · intro heq
      have hcast : castInt (sqlSubstrFrom
          (add_service tbl oid ot sn iv de stz nts emr mu ue now today).2 5)
          = castInt (sqlSubstrFrom
              (add_service (add_service tbl oid ot sn iv de stz nts emr mu ue now today).1
                oid ot sn iv de stz nts emr mu ue now today).2 5) := by
        rw [heq]
      rw [c1, c2, hm2] at hcast
      omega
  · intro tbl ot nm de stz ue now t hot hlen hnn
    have hpre : ((pyUpper (take3 (pyStr (some t)))).data ++ ['-']).length = 4 := by
      show ((t.data.take 3).map upperChar ++ ['-']).length = 4
      rw [List.length_append, List.length_map, List.length_take, min_eq_left hlen]
      rfl
    have hm0 : 0 ≤ maxOr0 (objectSuffixes tbl (some t)) := maxOr0_nonneg _ hnn
    have hid1 : (add_object tbl ot nm de stz ue now).2
        = String.mk (((pyUpper (take3 (pyStr (some t)))).data ++ ['-'])
            ++ (intPad 4 (maxOr0 (objectSuffixes tbl (some t)) + 1)).data) := by
      show String.mk (((pyUpper (take3 (pyStr (normalize_object_type ot)))).data ++ ['-'])
          ++ (intPad 4 (maxOr0 (objectSuffixes tbl (normalize_object_type ot)) + 1)).data) = _
      rw [hot]
    have c1 : castInt (sqlSubstrFrom (add_object tbl ot nm de stz ue now).2 5)
        = maxOr0 (objectSuffixes tbl (some t)) + 1 := by
      rw [hid1]
      exact castInt_substr_id _ hpre 4 _ (by omega)
    have hsfx : objectSuffixes (add_object tbl ot nm de stz ue now).1 (some t)
        = objectSuffixes tbl (some t)
          ++ [castInt (sqlSubstrFrom (add_object tbl ot nm de stz ue now).2 5)] := by
      refine objectSuffixes_append tbl _ t _ ?_ rfl
      show some (optVal (normalize_object_type ot)) = some (Val.text t)
      rw [hot]
      rfl
    have hm2 : maxOr0 (objectSuffixes (add_object tbl ot nm de stz ue now).1 (some t))
        = maxOr0 (objectSuffixes tbl (some t)) + 1 := by
      rw [hsfx, c1]
      exact maxOr0_append_one _ _ (by omega)
    have hid2 : (add_object (add_object tbl ot nm de stz ue now).1 ot nm de stz ue now).2
        = String.mk (((pyUpper (take3 (pyStr (some t)))).data ++ ['-'])
            ++ (intPad 4 (maxOr0
                (objectSuffixes (add_object tbl ot nm de stz ue now).1 (some t)) + 1)).data) := by
      show String.mk (((pyUpper (take3 (pyStr (normalize_object_type ot)))).data ++ ['-'])
          ++ (intPad 4 (maxOr0 (objectSuffixes (add_object tbl ot nm de stz ue now).1
              (normalize_object_type ot)) + 1)).data) = _
      rw [hot]
    have c2 : castInt (sqlSubstrFrom
        (add_object (add_object tbl ot nm de stz ue now).1 ot nm de stz ue now).2 5)
        = maxOr0 (objectSuffixes (add_object tbl ot nm de stz ue now).1 (some t)) + 1 := by
      rw [hid2]
      exact castInt_substr_id _ hpre 4 _ (by rw [hm2]; omega)
    constructor
    · rw [c1, c2, hm2]
      omega
    · intro heq
      have hcast : castInt (sqlSubstrFrom (add_object tbl ot nm de stz ue now).2 5)
          = castInt (sqlSubstrFrom
              (add_object (add_object tbl ot nm de stz ue now).1 ot nm de stz ue now).2 5) := by
        rw [heq]
      rw [c1, c2, hm2] at hcast
      omega

/-- C4 witness: two sequential service adds on the concrete table (existing
suffix 7) produce strictly increasing parsed suffixes. -/
theorem id_generation_contract_witness :
    castInt (sqlSubstrFrom (add_service demoServices (Val.text "VEH-0001")
        (some "Vehicle") (Val.text "Oil change") (Val.int 90) (Val.text "")
        (Val.text "Scheduled") (Val.text "") Val.null (Val.text "km")
        (Val.text "alice@example.com") "2026-10-12 08:00:00" "2026-10-12").2 5)
      < castInt (sqlSubstrFrom (add_service (add_service demoServices
          (Val.text "VEH-0001") (some "Vehicle") (Val.text "Oil change") (Val.int 90)
          (Val.text "") (Val.text "Scheduled") (Val.text "") Val.null (Val.text "km")
          (Val.text "alice@example.com") "2026-10-12 08:00:00" "2026-10-12").1
          (Val.text "VEH-0001") (some "Vehicle") (Val.text "Oil change") (Val.int 90)
          (Val.text "") (Val.text "Scheduled") (Val.text "") Val.null (Val.text "km")
          (Val.text "alice@example.com") "2026-10-12 08:00:00" "2026-10-12").2 5) :=
  (id_generation_contract.2.2.2.2.1 demoServices (Val.text "VEH-0001")
      (some "Vehicle") (Val.text "Oil change") (Val.int 90) (Val.text "")
      (Val.text "Scheduled") (Val.text "") Val.null (Val.text "km")
      (Val.text "alice@example.com") "2026-10-12 08:00:00" "2026-10-12"
      (by decide)).1
